import Mathlib

/-!
Shallow embedding of `ckan_essdive.py` (`CkanEssDiveClient` and its module-level
constants), together with theorems settling the specification claims about it.

Python values that the code reads with `dict.get` are modelled as `Option String`
(`none` for an absent key or a stored `None`); Python truthiness on such values is
`truthyStr`.  Network and filesystem effects are abstracted: an HTTP GET that either
succeeds or fails is a `String → Bool` parameter, and an outbound POST is recorded in
the result value instead of being performed.
-/

namespace CkanEssDive

/-- Python truthiness of an optional string value: `None` and `""` are falsy. -/
def truthyStr : Option String → Bool
  | none => false
  | some s => !s.isEmpty

/-- Python `a or b` on optional string values: `a` when truthy, else `b` (even if falsy). -/
def pyOr (a b : Option String) : Option String :=
  if truthyStr a then a else b

/-- Python `a or d` where `d` is a string literal, as in `resource.get("name") or "resource"`. -/
def pyOrDefault (a : Option String) (d : String) : String :=
  match pyOr a (some d) with
  | some s => s
  | none => d

/-- The whitespace set of Python `str.strip()` restricted to ASCII
(space, tab, newline, carriage return, vertical tab, form feed). -/
def pyIsSpace (c : Char) : Bool :=
  c = ' ' || c = '\t' || c = '\n' || c = '\r' || c = '\x0b' || c = '\x0c'

/-- Python `str.strip()`: drop leading and trailing whitespace. -/
def pyStrip (s : String) : String :=
  ⟨(((s.data.dropWhile pyIsSpace).reverse).dropWhile pyIsSpace).reverse⟩

/-- Rendering of an optional string by `%s` formatting (`logging.warning`):
`None` prints as `"None"`. -/
def pyReprOpt : Option String → String
  | none => "None"
  | some s => s

/-! ## Data model -/

/-- One entry of a package's `extras` list: a dict read with
`item.get("key")` / `item.get("value")`. -/
structure ExtraItem where
  key : Option String := none
  value : Option String := none
deriving DecidableEq, Repr

/-- A tag object; the code reads only `tag.get("display_name")`. -/
structure Tag where
  display_name : Option String := none
deriving DecidableEq, Repr

/-- A group object; the code reads only `group.get("name")`. -/
structure Group where
  name : Option String := none
deriving DecidableEq, Repr

/-- A CKAN resource dict, restricted to the six keys the code reads. -/
structure Resource where
  id : Option String := none
  name : Option String := none
  url : Option String := none
  format : Option String := none
  description : Option String := none
  size : Option String := none
deriving DecidableEq, Repr

/-- A CKAN package dict, restricted to the keys `map_ckan_to_essdive` reads. -/
structure Package where
  id : Option String := none
  name : Option String := none
  title : Option String := none
  notes : Option String := none
  author : Option String := none
  author_email : Option String := none
  maintainer : Option String := none
  maintainer_email : Option String := none
  tags : List Tag := []
  groups : List Group := []
  extras : List ExtraItem := []
  resources : List Resource := []
deriving DecidableEq, Repr

/-- A creator/contact entry `{"name": ..., "email": ...}` built by the mapper. -/
structure Person where
  name : Option String := none
  email : Option String := none
deriving DecidableEq, Repr

/-- The `temporalCoverage` sub-dict of the payload. -/
structure TemporalCoverage where
  startDate : Option String := none
  endDate : Option String := none
deriving DecidableEq, Repr

/-- The ESS-DIVE payload dict built by `map_ckan_to_essdive`.  The `extras` field
carries the dict comprehension `dict((item.get("key"), item.get("value")) for item in ...)`,
represented by the item list; all lookups into it go through `dictGet`, which applies
the comprehension's last-occurrence-wins rule. -/
structure Payload where
  title : Option String := none
  description : Option String := none
  keywords : List String := []
  creators : List Person := []
  contacts : List Person := []
  temporalCoverage : TemporalCoverage := {}
  spatialCoverage : Option String := none
  communities : List String := []
  sourceCkanId : Option String := none
  sourceCkanName : Option String := none
  resources : List Resource := []
  extras : List ExtraItem := []
deriving DecidableEq, Repr

/-- `extras_dict.get(k)` on the dict built from the extras items: the value of the
last item whose key is `k` (a stored `None` and a missing key both give `none`,
exactly as Python `.get` does). -/
def dictGet (items : List ExtraItem) (k : String) : Option String :=
  match items.reverse.find? (fun it => it.key == some k) with
  | some it => it.value
  | none => none

/-- `k in extras_dict` for the dict built from the extras items. -/
def dictHasKey (items : List ExtraItem) (k : String) : Bool :=
  items.any (fun it => it.key == some k)

/-! ## Field Mapper: `CkanEssDiveClient.map_ckan_to_essdive` -/

def map_ckan_to_essdive (package : Package) : Payload :=
  let eget := fun k => dictGet package.extras k
  { title := pyOr package.title package.name
  , description := package.notes
  , keywords := package.tags.filterMap (fun tag =>
      if truthyStr tag.display_name then tag.display_name else none)
  , creators :=
      if truthyStr package.author || truthyStr package.author_email then
        [{ name := package.author, email := package.author_email }]
      else []
  , contacts :=
      if truthyStr package.maintainer || truthyStr package.maintainer_email then
        [{ name := package.maintainer, email := package.maintainer_email }]
      else []
  , temporalCoverage :=
      { startDate := pyOr (eget "temporal_start") (eget "time_start")
      , endDate := pyOr (eget "temporal_end") (eget "time_end") }
  , spatialCoverage := pyOr (eget "spatial") (eget "bbox")
  , communities := package.groups.filterMap (fun group =>
      if truthyStr group.name then group.name else none)
  , sourceCkanId := package.id
  , sourceCkanName := package.name
  , resources := package.resources.map (fun res =>
      { id := res.id, name := res.name, url := res.url, format := res.format
      , description := res.description, size := res.size })
  , extras := package.extras }

/-! ## Validator: `REQUIRED_FIELDS` and `CkanEssDiveClient.find_missing_metadata` -/

/-- The module-level `REQUIRED_FIELDS` dict, in its insertion (= iteration) order. -/
def REQUIRED_FIELDS : List (String × String) :=
  [ ("title", "Title")
  , ("description", "Description / abstract")
  , ("creators", "At least one creator")
  , ("contacts", "Primary contact / maintainer")
  , ("keywords", "Keywords / tags") ]

/-- A value fetched from the payload by string key inside `find_missing_metadata`,
keeping enough Python typing to evaluate truthiness and `isinstance(value, list)`. -/
inductive FieldVal where
  | ostr (o : Option String)
  | strs (l : List String)
  | persons (l : List Person)
deriving DecidableEq, Repr

/-- `payload.get(key)` for the keys listed in `REQUIRED_FIELDS`. -/
def payloadField (p : Payload) : String → FieldVal
  | "title" => .ostr p.title
  | "description" => .ostr p.description
  | "creators" => .persons p.creators
  | "contacts" => .persons p.contacts
  | "keywords" => .strs p.keywords
  | _ => .ostr none

/-- Truthiness of a creator/contact entry: each entry is a dict with the two keys
`name` and `email`, hence a non-empty dict, hence truthy regardless of its values. -/
def personTruthy (_ : Person) : Bool := true

/-- Python `not value` for a fetched field value. -/
def valFalsy : FieldVal → Bool
  | .ostr o => !truthyStr o
  | .strs l => l.isEmpty
  | .persons l => l.isEmpty

/-- Python `isinstance(value, list) and not any(value)` for a fetched field value. -/
def valListNoneTruthy : FieldVal → Bool
  | .ostr _ => false
  | .strs l => l.all (fun s => s.isEmpty)
  | .persons l => l.all (fun c => !personTruthy c)

def find_missing_metadata (payload : Payload) : List String :=
  let missing := REQUIRED_FIELDS.foldl (fun acc kl =>
    let value := payloadField payload kl.1
    if valFalsy value then acc ++ [kl.2]
    else if valListNoneTruthy value then acc ++ [kl.2]
    else acc) []
  let missing :=
    if truthyStr payload.temporalCoverage.startDate then missing
    else missing ++ ["Temporal start date"]
  if truthyStr payload.temporalCoverage.endDate then missing
  else missing ++ ["Temporal end date"]

/-! ## Staging filename: `CkanEssDiveClient._resource_filename` -/

/-- Split a character list on a separator character (the separators are dropped,
empty segments kept), as Python `str.split(sep)` does. -/
def splitOnChar (sep : Char) (cs : List Char) : List (List Char) :=
  cs.foldr
    (fun c acc =>
      if c = sep then [] :: acc
      else
        match acc with
        | [] => [[c]]
        | h :: t => (c :: h) :: t)
    [[]]

/-- Python `s.endswith(post)`, evaluated on the character lists. -/
def strEndsWith (s post : String) : Bool :=
  post.data.isSuffixOf s.data

/-- `pathlib.PurePosixPath(url).name`: the last path component, with empty
components (repeated or trailing slashes) dropped. -/
def pathName (url : String) : String :=
  match ((splitOnChar '/' url.data).filter (fun cs => !cs.isEmpty)).getLast? with
  | some n => ⟨n⟩
  | none => ""

/-- `name.rfind(".")` on the character list: index of the last dot, if any. -/
def rfindDot (cs : List Char) : Option Nat :=
  (List.range cs.length).foldl
    (fun acc i => if cs.get? i = some '.' then some i else acc) none

/-- `pathlib.Path(url).suffix`: the extension of the final component — from the last
dot when that dot is neither the first nor the last character of the component. -/
def pathSuffix (url : String) : String :=
  let cs := (pathName url).data
  match rfindDot cs with
  | some i => if 0 < i ∧ i + 1 < cs.length then ⟨cs.drop i⟩ else ""
  | none => ""

/-- `CkanEssDiveClient._resource_filename`: resource name, else id, else `"resource"`,
with the URL's extension appended when the name does not already end with it. -/
def resource_filename (resource : Resource) : String :=
  let name := pyOrDefault (pyOr resource.name resource.id) "resource"
  let url := pyOrDefault resource.url ""
  let suffix := if !url.isEmpty then pathSuffix url else ""
  if !suffix.isEmpty && !(strEndsWith name suffix) then name ++ suffix else name

/-! ## Client state -/

/-- The configuration fields stored by `CkanEssDiveClient.__init__` (the lazily built
`_tapis_client` cache is derived from these and carries no configuration of its own). -/
structure Client where
  ckan_url : String := ""
  ckan_key : String := ""
  ess_url : String := ""
  ess_token : String := ""
  local_stage : String := "./staging"
  tapis_base : Option String := none
  tapis_token : Option String := none
  tapis_system : Option String := none
  tapis_path : Option String := none
  dry_run : Bool := true
deriving DecidableEq, Repr

/-! ## Bridge Authenticator: `CkanEssDiveClient.authenticate_ckan_with_tapis` -/

/-- `authenticate_ckan_with_tapis`: the Tapis credential exchange performed by
`get_ckan_token_via_tapis` is a network call, abstracted as the token it returned;
the method stores that token as `self.ckan_key` and returns it. -/
def authenticate_ckan_with_tapis (c : Client) (fetchedToken : String) :
    String × Client :=
  (fetchedToken, { c with ckan_key := fetchedToken })

/-! ## Resource Stager: `download_resource` and `CkanEssDiveClient.stage_resources`

`download_resource` is declared in the class body without a `self` parameter and
without the `@staticmethod` decorator, yet `stage_resources` calls it as a bound
method: `self.download_resource(res, self.local_stage, api_key=self.ckan_key)`.
Python therefore passes `(self, res, self.local_stage)` positionally — filling all
three parameters `(resource, target_dir, api_key)` — and the keyword `api_key`
collides with the third positional, raising `TypeError` before the body runs.
The argument binding is modelled explicitly so this behaviour is derived, not
hard-coded. -/

/-- A Python value appearing as an argument at the `download_resource` call site. -/
inductive PyVal where
  | client (c : Client)
  | res (r : Resource)
  | path (p : String)
  | str (s : String)
deriving Repr

/-- The body of `download_resource(resource, target_dir, api_key="")`, once arguments
are bound.  `fetch url` abstracts the streamed HTTP GET: `true` means the download
succeeded, `false` a transport or status failure (`raise_for_status` / network error).
`expanduser().resolve()` and directory creation are filesystem effects abstracted to
plain path concatenation. -/
def download_resource (fetch : String → Bool) (resource : Resource)
    (target_dir : String) (_api_key : String) : Except String String :=
  match if truthyStr resource.url then resource.url else none with
  | none => .error "Resource has no URL to download"
  | some url =>
    let filename := resource_filename resource
    let path := target_dir ++ "/" ++ filename
    if fetch url then .ok path
    else .error ("HTTP error for " ++ url)

/-- Binding of positional and keyword arguments against the signature
`download_resource(resource, target_dir, api_key="")`. -/
def bindDownloadResourceArgs (pos : List PyVal) (kw : List (String × PyVal)) :
    Except String (PyVal × PyVal × PyVal) :=
  if kw.any (fun p => p.1 != "api_key") then
    .error "TypeError: download_resource() got an unexpected keyword argument"
  else
    match pos, (kw.filter (fun p => p.1 == "api_key")).head?.map (fun p => p.2) with
    | [a, b], some k => .ok (a, b, k)
    | [a, b], none => .ok (a, b, .str "")
    | [a, b, c], none => .ok (a, b, c)
    | [_, _, _], some _ =>
      .error "TypeError: download_resource() got multiple values for argument api_key"
    | _, _ => .error "TypeError: download_resource() takes 2 to 3 arguments"

/-- Running the `download_resource` body on bound `PyVal` arguments: the body calls
`resource.get(...)`, so a non-dict `resource` (here: the client instance) would fail
with `AttributeError`. -/
def runDownloadResource (fetch : String → Bool) :
    PyVal × PyVal × PyVal → Except String String
  | (.res r, .path d, .str k) => download_resource fetch r d k
  | _ => .error "AttributeError: object has no attribute get"

/-- The call `self.download_resource(res, self.local_stage, api_key=self.ckan_key)`
as executed in `stage_resources`: bound-method semantics prepend `self`. -/
def boundDownloadResourceCall (fetch : String → Bool) (c : Client)
    (res : Resource) : Except String String :=
  match bindDownloadResourceArgs
      [PyVal.client c, PyVal.res res, PyVal.path c.local_stage]
      [("api_key", PyVal.str c.ckan_key)] with
  | .error e => .error e
  | .ok bound => runDownloadResource fetch bound

/-- `self.tapis_client and self.tapis_system and self.tapis_path`: whether the
post-download Tapis upload branch runs (the upload itself is an external effect). -/
def tapisUploadEnabled (tapisAvailable : Bool) (c : Client) : Bool :=
  tapisAvailable && c.tapis_token.isSome && c.tapis_base.isSome &&
    truthyStr c.tapis_system && truthyStr c.tapis_path

/-- `CkanEssDiveClient.stage_resources`: for each resource of the package, try the
(buggy) bound call to `download_resource`; append the returned path to `saved` on
success, and on any exception log `"Could not stage {name}: {exc}"` and continue.
Returns `(saved, warnings logged)`. -/
def stage_resources (fetch : String → Bool) (c : Client) (package : Package) :
    List String × List String :=
  package.resources.foldl (fun acc res =>
    match boundDownloadResourceCall fetch c res with
    | .ok path => (acc.1 ++ [path], acc.2)
    | .error exc =>
      (acc.1, acc.2 ++ ["Could not stage " ++ pyReprOpt res.name ++ ": " ++ exc]))
    ([], [])

/-! ## Destination Gateway: `CkanEssDiveClient.submit_to_essdive` -/

/-- Result of `submit_to_essdive`.  Only the `posted` constructor represents an
attempted network call; `skipped` carries the sentinel dict
status "skipped" / reason "dry_run_enabled" and `authError` the
`RuntimeError` message raised before any request is built. -/
inductive SubmitOutcome where
  | skipped (status reason : String)
  | authError (message : String)
  | posted (url : String) (bearer : String) (body : Payload)
deriving DecidableEq, Repr

def submit_to_essdive (c : Client) (payload : Payload) : SubmitOutcome :=
  if c.dry_run then .skipped "skipped" "dry_run_enabled"
  else
    let token := pyStrip c.ess_token
    if token.isEmpty then .authError "ESS-DIVE token is required to write"
    else .posted (c.ess_url ++ "/datasets") token payload

/-! ## Source Catalog Gateway: `CkanEssDiveClient.ckan_request` -/

/-- A decoded CKAN JSON response envelope, reaching `ckan_request` after
`raise_for_status` passed.  `success` is the truthiness of
`payload.get("success")`, `rendered` the `str()` text of the whole envelope that
the f-string interpolates, and `result` the value under `"result"` if any. -/
structure CkanEnvelope where
  success : Bool
  rendered : String
  result : Option String := none
deriving DecidableEq, Repr

/-- `ckan_request` past the HTTP layer: raise a `RuntimeError` naming the action and
echoing the envelope when the success flag is falsy, else return `payload["result"]`
(a `KeyError` if the key is absent). -/
def ckan_request (action : String) (envelope : CkanEnvelope) :
    Except String String :=
  if !envelope.success then
    .error ("CKAN call " ++ action ++ " failed: " ++ envelope.rendered)
  else
    match envelope.result with
    | some r => .ok r
    | none => .error "KeyError: result"

/-! ## Helper lemmas -/

theorem pyStrip_eq_empty_of_all_space (s : String)
    (h : ∀ c ∈ s.data, pyIsSpace c = true) : pyStrip s = "" := by
  unfold pyStrip
  have h1 : s.data.dropWhile pyIsSpace = [] :=
    List.dropWhile_eq_nil_iff.mpr h
  rw [h1]
  rfl

theorem payloadField_title (p : Payload) : payloadField p "title" = .ostr p.title := rfl

theorem payloadField_description (p : Payload) :
    payloadField p "description" = .ostr p.description := rfl

theorem payloadField_creators (p : Payload) :
    payloadField p "creators" = .persons p.creators := rfl

theorem payloadField_contacts (p : Payload) :
    payloadField p "contacts" = .persons p.contacts := rfl

theorem payloadField_keywords (p : Payload) :
    payloadField p "keywords" = .strs p.keywords := rfl

/-! ## Claim theorems -/

/-- C3: `find_missing_metadata` on an empty payload returns exactly the seven fixed
labels in the fixed check order — the five `REQUIRED_FIELDS` labels in dict insertion
order, then the two temporal labels last. -/
theorem find_missing_metadata_empty_payload :
    find_missing_metadata {} =
      [ "Title", "Description / abstract", "At least one creator"
      , "Primary contact / maintainer", "Keywords / tags"
      , "Temporal start date", "Temporal end date" ] := by
  rfl

/-- C7: the derived staging filename for URL `https://x/data.csv` is `dataset.csv`
for name `dataset` and also `dataset.csv` for name `dataset.csv` (the extension is
appended only when the name does not already end with it); with no name the id is
used, and with neither the generic name `resource`. -/
theorem resource_filename_spec :
    resource_filename { name := some "dataset", url := some "https://x/data.csv" }
      = "dataset.csv"
  ∧ resource_filename { name := some "dataset.csv", url := some "https://x/data.csv" }
      = "dataset.csv"
  ∧ resource_filename { id := some "abc123", url := some "https://x/data.csv" }
      = "abc123.csv"
  ∧ resource_filename { url := some "https://x/data.csv" } = "resource.csv"
  ∧ resource_filename ({} : Resource) = "resource" := by
  refine ⟨rfl, rfl, rfl, rfl, rfl⟩

/-- C9: `authenticate_ckan_with_tapis` returns the fetched token, stores it as the
client's CKAN API key, and leaves every other configuration field unchanged. -/
theorem authenticate_updates_only_ckan_key (c : Client) (t : String) :
    (authenticate_ckan_with_tapis c t).1 = t
  ∧ (authenticate_ckan_with_tapis c t).2.ckan_key = t
  ∧ (authenticate_ckan_with_tapis c t).2.ckan_url = c.ckan_url
  ∧ (authenticate_ckan_with_tapis c t).2.ess_url = c.ess_url
  ∧ (authenticate_ckan_with_tapis c t).2.ess_token = c.ess_token
  ∧ (authenticate_ckan_with_tapis c t).2.local_stage = c.local_stage
  ∧ (authenticate_ckan_with_tapis c t).2.tapis_base = c.tapis_base
  ∧ (authenticate_ckan_with_tapis c t).2.tapis_token = c.tapis_token
  ∧ (authenticate_ckan_with_tapis c t).2.tapis_system = c.tapis_system
  ∧ (authenticate_ckan_with_tapis c t).2.tapis_path = c.tapis_path
  ∧ (authenticate_ckan_with_tapis c t).2.dry_run = c.dry_run := by
  refine ⟨rfl, rfl, rfl, rfl, rfl, rfl, rfl, rfl, rfl, rfl, rfl⟩

/-- C2: `submit_to_essdive` with dry-run enabled returns the sentinel skip result for
every payload; with dry-run disabled and an empty token it fails with the
authorization error; with dry-run disabled and a token that is non-empty after
stripping it performs the POST (the only constructor representing a network call)
with the stripped bearer token and the payload as body. -/
theorem submit_to_essdive_modes (c : Client) (p : Payload) :
    (c.dry_run = true → submit_to_essdive c p = .skipped "skipped" "dry_run_enabled")
  ∧ (c.dry_run = false → c.ess_token = "" →
      submit_to_essdive c p = .authError "ESS-DIVE token is required to write")
  ∧ (c.dry_run = false → pyStrip c.ess_token ≠ "" →
      submit_to_essdive c p =
        .posted (c.ess_url ++ "/datasets") (pyStrip c.ess_token) p) := by
  refine ⟨fun h => ?_, fun h h2 => ?_, fun h h2 => ?_⟩
  · simp [submit_to_essdive, h]
  · simp [submit_to_essdive, h, h2]
    rfl
  · have h3 : (pyStrip c.ess_token).isEmpty = false := by
      rcases hb : (pyStrip c.ess_token).isEmpty with _ | _
      · rfl
      · exact absurd ((String.isEmpty_iff _).mp hb) h2
    simp [submit_to_essdive, h, h3]

/-- Witness for C2 at concrete clients: one per mode. -/
theorem submit_to_essdive_modes_witness :
    submit_to_essdive { dry_run := true } {} = .skipped "skipped" "dry_run_enabled"
  ∧ submit_to_essdive { dry_run := false, ess_token := "" } {} =
      .authError "ESS-DIVE token is required to write"
  ∧ submit_to_essdive { dry_run := false, ess_token := " tok " } {} =
      .posted "/datasets" "tok" {} := by
  refine ⟨?_, ?_, ?_⟩
  · exact (submit_to_essdive_modes { dry_run := true } {}).1 rfl
  · exact (submit_to_essdive_modes { dry_run := false, ess_token := "" } {}).2.1 rfl rfl
  · have h := (submit_to_essdive_modes { dry_run := false, ess_token := " tok " } {}).2.2
      rfl (by decide)
    have h1 : pyStrip " tok " = "tok" := by decide
    have h2 : (("" : String) ++ "/datasets") = "/datasets" := by decide
    rw [h1, h2] at h
    exact h

/-- C10: with dry-run disabled, a destination token consisting only of whitespace is
stripped to the empty string, so submission fails with the same authorization error
as an empty token and no network call is represented. -/
theorem submit_whitespace_token_auth_error (c : Client) (p : Payload)
    (hdr : c.dry_run = false)
    (hall : ∀ ch ∈ c.ess_token.data, pyIsSpace ch = true) :
    submit_to_essdive c p = .authError "ESS-DIVE token is required to write"
  ∧ submit_to_essdive { c with ess_token := "" } p =
      .authError "ESS-DIVE token is required to write" := by
  have hs : pyStrip c.ess_token = "" := pyStrip_eq_empty_of_all_space _ hall
  constructor
  · simp [submit_to_essdive, hdr, hs]
    rfl
  · simp [submit_to_essdive, hdr]
    rfl

/-- Witness for C10 at the concrete token `" \t "`. -/
theorem submit_whitespace_token_auth_error_witness :
    submit_to_essdive { dry_run := false, ess_token := " \t " } {} =
      .authError "ESS-DIVE token is required to write" :=
  (submit_whitespace_token_auth_error { dry_run := false, ess_token := " \t " } {}
    rfl (by decide)).1

/-- C6: `ckan_request`, on an envelope whose success flag is falsy, fails with a
`RuntimeError` whose message is exactly `CKAN call <action> failed: <envelope>`, which
contains the action name and echoes the rendered envelope. -/
theorem ckan_request_failure (action : String) (env : CkanEnvelope)
    (h : env.success = false) :
    ckan_request action env =
      .error ("CKAN call " ++ action ++ " failed: " ++ env.rendered)
  ∧ (∃ pre post,
      "CKAN call " ++ action ++ " failed: " ++ env.rendered = pre ++ action ++ post)
  ∧ (∃ pre post,
      "CKAN call " ++ action ++ " failed: " ++ env.rendered =
        pre ++ env.rendered ++ post) := by
  refine ⟨by simp [ckan_request, h],
    ⟨"CKAN call ", " failed: " ++ env.rendered, ?_⟩,
    ⟨"CKAN call " ++ action ++ " failed: ", "", ?_⟩⟩
  · simp [String.append_assoc]
  · simp

/-- Witness for C6 at a concrete action and envelope. -/
theorem ckan_request_failure_witness :
    ckan_request "package_show"
        { success := false, rendered := "\x7bsuccess: False\x7d" } =
      .error "CKAN call package_show failed: \x7bsuccess: False\x7d" := by
  have h := (ckan_request_failure "package_show"
    { success := false, rendered := "\x7bsuccess: False\x7d" } rfl).1
  have h2 : ("CKAN call " ++ "package_show" ++ " failed: " ++
      "\x7bsuccess: False\x7d" : String) =
      "CKAN call package_show failed: \x7bsuccess: False\x7d" := by decide
  rw [h2] at h
  exact h

/-- C8: `find_missing_metadata` on a fully-populated payload — truthy title and
description, at least one creator and one contact, at least one non-empty keyword,
and truthy temporal start and end dates — returns an empty report. -/
theorem find_missing_metadata_fully_populated (p : Payload)
    (ht : truthyStr p.title = true)
    (hd : truthyStr p.description = true)
    (hcr : p.creators ≠ [])
    (hco : p.contacts ≠ [])
    (hk : p.keywords.any (fun s => !s.isEmpty) = true)
    (hs : truthyStr p.temporalCoverage.startDate = true)
    (he : truthyStr p.temporalCoverage.endDate = true) :
    find_missing_metadata p = [] := by
  obtain ⟨x, hx, hxe⟩ := List.any_eq_true.mp hk
  have hk1 : p.keywords.isEmpty = false := by
    cases hkeys : p.keywords with
    | nil => rw [hkeys] at hx; cases hx
    | cons a l => rfl
  have hk2 : p.keywords.all (fun s => s.isEmpty) = false := by
    rw [Bool.eq_false_iff]
    intro hall
    have := List.all_eq_true.mp hall x hx
    rw [this] at hxe
    cases hxe
  have hcr1 : p.creators.isEmpty = false := by
    cases hcrs : p.creators with
    | nil => exact absurd hcrs hcr
    | cons a l => rfl
  have hcr2 : p.creators.all (fun c => !personTruthy c) = false := by
    cases hcrs : p.creators with
    | nil => exact absurd hcrs hcr
    | cons a l => simp [personTruthy]
  have hco1 : p.contacts.isEmpty = false := by
    cases hcos : p.contacts with
    | nil => exact absurd hcos hco
    | cons a l => rfl
  have hco2 : p.contacts.all (fun c => !personTruthy c) = false := by
    cases hcos : p.contacts with
    | nil => exact absurd hcos hco
    | cons a l => simp [personTruthy]
  simp only [find_missing_metadata, REQUIRED_FIELDS, List.foldl_cons, List.foldl_nil,
    payloadField_title, payloadField_description, payloadField_creators,
    payloadField_contacts, payloadField_keywords, valFalsy, valListNoneTruthy,
    ht, hd, hs, he, hk1, hk2, hcr1, hcr2, hco1, hco2,
    Bool.not_true, if_false, if_true, Bool.false_eq_true, ite_false, ite_true,
    List.nil_append]

/-- Witness for C8 at a concrete fully-populated payload. -/
theorem find_missing_metadata_fully_populated_witness :
    find_missing_metadata
      { title := some "T", description := some "D"
      , creators := [{ name := some "A" }]
      , contacts := [{ email := some "m@example.org" }]
      , keywords := ["water"]
      , temporalCoverage := { startDate := some "2020-01-01", endDate := some "2021-01-01" } }
      = [] :=
  find_missing_metadata_fully_populated _ rfl rfl (by decide) (by decide) rfl rfl rfl

/-- A package whose extras list contains the key `temporal_start` with an empty
value as well as a `time_start` value. -/
def presentFalsyStartPkg : Package :=
  { extras := [ { key := some "temporal_start", value := some "" }
              , { key := some "time_start", value := some "2020-01-01" } ] }

/-- A package whose extras hold truthy values under the primary spellings. -/
def truthyExtrasPkg : Package :=
  { extras := [ { key := some "temporal_start", value := some "2001-01-01" }
              , { key := some "temporal_end", value := some "2002-02-02" }
              , { key := some "spatial", value := some "POLYGON" } ] }

/-- C4 counterexample: the claim says `startDate` equals `extras["temporal_start"]`
whenever that key is present, but the code uses Python `or`, which falls through on a
present-but-falsy value: here `temporal_start` is present with value `""` and the
mapped `startDate` is `extras["time_start"]` instead. -/
theorem map_temporal_start_present_falsy_cex :
    dictHasKey presentFalsyStartPkg.extras "temporal_start" = true
  ∧ dictGet presentFalsyStartPkg.extras "temporal_start" = some ""
  ∧ (map_ckan_to_essdive presentFalsyStartPkg).temporalCoverage.startDate =
      some "2020-01-01"
  ∧ (map_ckan_to_essdive presentFalsyStartPkg).temporalCoverage.startDate ≠
      dictGet presentFalsyStartPkg.extras "temporal_start" := by
  refine ⟨rfl, rfl, rfl, ?_⟩
  decide

/-- C4 (amended): `startDate` equals `extras["temporal_start"]` when that value is
present and truthy, else `extras["time_start"]` (even when falsy or absent);
`endDate` and `spatialCoverage` follow the same truthiness-based fallback on their
respective key pairs. -/
theorem map_extras_truthy_fallback (p : Package) :
    (truthyStr (dictGet p.extras "temporal_start") = true →
      (map_ckan_to_essdive p).temporalCoverage.startDate =
        dictGet p.extras "temporal_start")
  ∧ (truthyStr (dictGet p.extras "temporal_start") = false →
      (map_ckan_to_essdive p).temporalCoverage.startDate =
        dictGet p.extras "time_start")
  ∧ (truthyStr (dictGet p.extras "temporal_end") = true →
      (map_ckan_to_essdive p).temporalCoverage.endDate =
        dictGet p.extras "temporal_end")
  ∧ (truthyStr (dictGet p.extras "temporal_end") = false →
      (map_ckan_to_essdive p).temporalCoverage.endDate =
        dictGet p.extras "time_end")
  ∧ (truthyStr (dictGet p.extras "spatial") = true →
      (map_ckan_to_essdive p).spatialCoverage = dictGet p.extras "spatial")
  ∧ (truthyStr (dictGet p.extras "spatial") = false →
      (map_ckan_to_essdive p).spatialCoverage = dictGet p.extras "bbox") := by
  refine ⟨fun h => ?_, fun h => ?_, fun h => ?_, fun h => ?_, fun h => ?_, fun h => ?_⟩
    <;> simp [map_ckan_to_essdive, pyOr, h]

/-- Witness for C4 (amended), exercising every branch at concrete packages. -/
theorem map_extras_truthy_fallback_witness :
    (map_ckan_to_essdive truthyExtrasPkg).temporalCoverage.startDate =
      dictGet truthyExtrasPkg.extras "temporal_start"
  ∧ (map_ckan_to_essdive presentFalsyStartPkg).temporalCoverage.startDate =
      dictGet presentFalsyStartPkg.extras "time_start"
  ∧ (map_ckan_to_essdive truthyExtrasPkg).temporalCoverage.endDate =
      dictGet truthyExtrasPkg.extras "temporal_end"
  ∧ (map_ckan_to_essdive presentFalsyStartPkg).temporalCoverage.endDate =
      dictGet presentFalsyStartPkg.extras "time_end"
  ∧ (map_ckan_to_essdive truthyExtrasPkg).spatialCoverage =
      dictGet truthyExtrasPkg.extras "spatial"
  ∧ (map_ckan_to_essdive presentFalsyStartPkg).spatialCoverage =
      dictGet presentFalsyStartPkg.extras "bbox" :=
  ⟨(map_extras_truthy_fallback truthyExtrasPkg).1 (by decide),
   (map_extras_truthy_fallback presentFalsyStartPkg).2.1 (by decide),
   (map_extras_truthy_fallback truthyExtrasPkg).2.2.1 (by decide),
   (map_extras_truthy_fallback presentFalsyStartPkg).2.2.2.1 (by decide),
   (map_extras_truthy_fallback truthyExtrasPkg).2.2.2.2.1 (by decide),
   (map_extras_truthy_fallback presentFalsyStartPkg).2.2.2.2.2 (by decide)⟩

/-- A package with empty extras, tags, groups, and resources but a truthy author. -/
def authorOnlyPkg : Package := { author := some "Alice" }

/-- C5 counterexample: a record with empty extras, tags, groups, and resources whose
mapped payload nevertheless has a non-empty creators sequence, because creators come
from the author fields, which the claim's emptiness conditions do not cover. -/
theorem map_empty_lists_author_cex :
    authorOnlyPkg.extras = [] ∧ authorOnlyPkg.tags = []
  ∧ authorOnlyPkg.groups = [] ∧ authorOnlyPkg.resources = []
  ∧ (map_ckan_to_essdive authorOnlyPkg).creators ≠ [] := by
  refine ⟨rfl, rfl, rfl, rfl, ?_⟩
  decide

/-- C5 (amended): the mapped payload's keywords, creators, contacts, communities,
and resources are always present as (possibly empty) list fields by construction,
and a record with empty extras, tags, groups, and resources *and* falsy author,
author email, maintainer, and maintainer email maps to all five empty. -/
theorem map_empty_inputs_empty_sequences (p : Package)
    (hex : p.extras = []) (htg : p.tags = []) (hgr : p.groups = [])
    (hrs : p.resources = [])
    (ha : truthyStr p.author = false) (hae : truthyStr p.author_email = false)
    (hm : truthyStr p.maintainer = false) (hme : truthyStr p.maintainer_email = false) :
    (map_ckan_to_essdive p).keywords = []
  ∧ (map_ckan_to_essdive p).creators = []
  ∧ (map_ckan_to_essdive p).contacts = []
  ∧ (map_ckan_to_essdive p).communities = []
  ∧ (map_ckan_to_essdive p).resources = [] := by
  simp [map_ckan_to_essdive, hex, htg, hgr, hrs, ha, hae, hm, hme]

/-- Witness for C5 (amended) at the all-empty package. -/
theorem map_empty_inputs_empty_sequences_witness :
    (map_ckan_to_essdive {}).keywords = []
  ∧ (map_ckan_to_essdive {}).creators = []
  ∧ (map_ckan_to_essdive {}).contacts = []
  ∧ (map_ckan_to_essdive {}).communities = []
  ∧ (map_ckan_to_essdive {}).resources = [] :=
  map_empty_inputs_empty_sequences {} rfl rfl rfl rfl rfl rfl rfl rfl

/-- The downloader parameter for which every HTTP GET would succeed. -/
def fetchOk : String → Bool := fun _ => true

/-- The C1 package: three resources, only the second lacking a URL. -/
def threeResourcePkg : Package :=
  { resources := [ { name := some "first", url := some "https://x/a.csv" }
                 , { name := some "second" }
                 , { name := some "third", url := some "https://x/c.csv" } ] }

/-- C1 evaluated at the failing input: because `download_resource` is declared
without `self` and without `@staticmethod` but invoked as a bound method, every
per-resource call raises `TypeError` (the keyword `api_key` collides with the third
positional argument) inside the `try` block.  `stage_resources` therefore logs a
failure for all three resources and returns an empty list — not the staged locations
of the first and third — even though `download_resource` itself, called with the
intended arguments, would stage the first and third and reject only the second.
The loop still never aborts: the exception is caught and iteration continues. -/
theorem stage_resources_binding_bug :
    (stage_resources fetchOk {} threeResourcePkg).1 = []
  ∧ (stage_resources fetchOk {} threeResourcePkg).2 =
      [ "Could not stage first: TypeError: download_resource() got multiple values for argument api_key"
      , "Could not stage second: TypeError: download_resource() got multiple values for argument api_key"
      , "Could not stage third: TypeError: download_resource() got multiple values for argument api_key" ]
  ∧ download_resource fetchOk { name := some "first", url := some "https://x/a.csv" }
      "./staging" "" = .ok "./staging/first.csv"
  ∧ download_resource fetchOk { name := some "second" }
      "./staging" "" = .error "Resource has no URL to download"
  ∧ download_resource fetchOk { name := some "third", url := some "https://x/c.csv" }
      "./staging" "" = .ok "./staging/third.csv" := by
  refine ⟨rfl, rfl, rfl, rfl, rfl⟩

end CkanEssDive
